import Mathlib

/-!
Verification of the task-service web client (frontend/src/types.ts,
frontend/src/api.ts, and the App view-state controller).

The embedding is shallow: TypeScript runtime values become Lean data
(JSON values are an inductive type, the TS string unions become string
fields or inductives mirroring types.ts), the four transport operations
and the controller's action handlers become pure functions from an
environment (the outcomes the surrounding runtime would deliver: fetch
responses, JSON.parse results, the confirm dialog answer) and the current
state to the next state together with the list of transport calls issued.
The await point of the controller's load function is split into an
issue phase and a resolve phase so that overlapping reloads can be
interleaved exactly as the single-threaded event loop would.
-/

namespace TaskService

/-! ## Domain model (types.ts) -/

/-- types.ts: SiteType = "marketplace" | "news" | "ecommerce" | "classifieds" | "other". -/
inductive SiteType where
  | marketplace
  | news
  | ecommerce
  | classifieds
  | other
deriving DecidableEq

/-- types.ts: TaskStatus = "created" | "running" | "paused" | "completed" | "failed". -/
inductive TaskStatus where
  | created
  | running
  | paused
  | completed
  | failed
deriving DecidableEq

/-- Runtime JSON values (what JSON.parse can return, and response bodies). -/
inductive Json where
  | null
  | bool (b : Bool)
  | num (n : Int)
  | str (s : String)
  | arr (elems : List Json)
  | obj (fields : List (String × Json))

/-- First binding of a key in a JS object's field list. -/
def lookupField : List (String × Json) → String → Option Json
  | [], _ => none
  | (k, v) :: rest, key => if k = key then some v else lookupField rest key

/-- JS property access `body?.detail`: a field lookup on objects, undefined
(none) on every other value. -/
def Json.getField : Json → String → Option Json
  | .obj fields, key => lookupField fields key
  | _, _ => none

/-- JS truthiness of a JSON value (`if (body?.detail)`). -/
def Json.truthy : Json → Bool
  | .null => false
  | .bool b => b
  | .num n => n != 0
  | .str s => s != ""
  | .arr _ => true
  | .obj _ => true

mutual

/-- JS string coercion `String(v)` as applied by `new Error(detail)` to a
JSON value. -/
def Json.jsToString : Json → String
  | .null => "null"
  | .bool b => if b then "true" else "false"
  | .num n => toString n
  | .str s => s
  | .arr elems => Json.arrToString elems
  | .obj _ => "[object Object]"

/-- JS Array.prototype.toString: elements joined by commas. -/
def Json.arrToString : List Json → String
  | [] => ""
  | [j] => j.jsToString
  | j :: rest => j.jsToString ++ "," ++ Json.arrToString rest

end

/-- JS String.prototype.trim: strip leading and trailing whitespace. The
source calls the JS builtin; this is its model over Lean strings. -/
def jsTrim (s : String) : String :=
  String.mk (((s.data.dropWhile Char.isWhitespace).reverse.dropWhile
    Char.isWhitespace).reverse)

/-- types.ts: Task. -/
structure Task where
  id : String
  name : String
  url : String
  site_type : SiteType
  status : TaskStatus
  criteria : Json
  created_at : String
  updated_at : String

/-- types.ts: TaskList. -/
structure TaskList where
  items : List Task
  total : Nat
  limit : Nat
  offset : Nat

/-- types.ts: TaskCreate. -/
structure TaskCreate where
  name : String
  url : String
  site_type : SiteType
  criteria : Json

/-! ## Transport client (api.ts) -/

/-- A fetch response as the `req` helper observes it: the HTTP status and
the outcome of `res.json()` (`none` when the body is not valid JSON, in
which case `res.json()` rejects). -/
structure HttpResponse where
  status : Nat
  jsonBody : Option Json

/-- fetch's `Response.ok`: status in the inclusive range 200–299. -/
def responseOk (status : Nat) : Bool :=
  decide (200 ≤ status) && decide (status ≤ 299)

/-- api.ts `req`, error branch: `let detail = ⟨HTTP status⟩; try ⟨body :=
await res.json()⟩; if (body?.detail) detail = body.detail; catch ⟨ignore⟩;
throw new Error(detail)`. This computes the thrown error's message. -/
def reqFailMessage (status : Nat) (jsonBody : Option Json) : String :=
  let fallback := s!"HTTP {status}"
  match jsonBody with
  | none => fallback
  | some body =>
    match body.getField "detail" with
    | some d => if d.truthy then d.jsToString else fallback
    | none => fallback

/-- What a call through `req` can throw. -/
inductive ReqError where
  | http (message : String)
  | bodyParse

/-- api.ts `req` applied to an arrived response: reject with the
normalized error on a non-ok status; return no payload on 204; otherwise
return the parsed body, or reject with the JSON parse failure when the
body of a success response is not JSON. -/
def req (resp : HttpResponse) : Except ReqError (Option Json) :=
  if !responseOk resp.status then
    .error (.http (reqFailMessage resp.status resp.jsonBody))
  else if resp.status = 204 then
    .ok none
  else
    match resp.jsonBody with
    | some j => .ok (some j)
    | none => .error .bodyParse

/-- The params object accepted by api.listTasks. -/
structure ListParams where
  limit : Option Int
  offset : Option Int
  status : Option String
  site_type : Option String
  q : Option String

/-- api.ts listTasks query building: the key/value pairs set on the
URLSearchParams, in the source's insertion order. `limit`/`offset` are set
when not null/undefined; `status`/`site_type`/`q` when truthy (present and
non-empty). -/
def listTasksQuery (params : ListParams) : List (String × String) :=
  (match params.limit with
   | some n => [("limit", toString n)]
   | none => []) ++
  (match params.offset with
   | some n => [("offset", toString n)]
   | none => []) ++
  (match params.status with
   | some s => if s ≠ "" then [("status", s)] else []
   | none => []) ++
  (match params.site_type with
   | some s => if s ≠ "" then [("site_type", s)] else []
   | none => []) ++
  (match params.q with
   | some s => if s ≠ "" then [("q", s)] else []
   | none => [])

/-! ## View-state controller (the App component) -/

/-- The App component's state hooks: task list snapshot, loading flag,
error message, the three filter inputs (the two selects hold "" when
unconstrained, mirroring the `SiteType | ""` unions), and the four
create-form inputs. -/
structure AppState where
  items : List Task
  loading : Bool
  err : Option String
  q : String
  siteType : String
  status : String
  name : String
  url : String
  createSiteType : SiteType
  criteriaText : String

/-- The create-form criteria default, the literal `'{"depth": 1}'`. -/
def defaultCriteriaText : String :=
  "\x7b\"depth\": 1\x7d"

/-- The initial values of the App state hooks. -/
def initialState : AppState :=
  { items := []
    loading := false
    err := none
    q := ""
    siteType := ""
    status := ""
    name := ""
    url := ""
    createSiteType := SiteType.other
    criteriaText := defaultCriteriaText }

/-- The `filters` memo: fixed page window, trimmed free-text query with ""
collapsed to undefined, selects with "" collapsed to undefined. -/
def filters (qv siteTypeSel statusSel : String) : ListParams :=
  { limit := some 50
    offset := some 0
    q := if jsTrim qv = "" then none else some (jsTrim qv)
    site_type := if siteTypeSel = "" then none else some siteTypeSel
    status := if statusSel = "" then none else some statusSel }

/-- One transport call issued by the controller, with its payload. -/
inductive ApiCall where
  | listTasks (params : ListParams)
  | createTask (payload : TaskCreate)
  | deleteTask (id : String)
  | updateStatus (id : String) (status : TaskStatus)

/-- The runtime surrounding one controller action: what JSON.parse returns
on a given text (none when it throws), what the confirm dialog answers,
and the outcome each transport operation would deliver (the error side
carries the message of the rejection the controller's catch observes). -/
structure Env where
  parseJSON : String → Option Json
  confirmAnswer : Bool
  listResult : Except String TaskList
  createResult : Except String Task
  deleteResult : Except String Unit
  updateResult : Except String Task

/-- load before its await: setLoading(true); setErr(null). -/
def loadIssue (s : AppState) : AppState :=
  { s with loading := true, err := none }

/-- load after its await resolves: on success replace the items snapshot
with the response's items, on failure set the error message; in both cases
the finally clears the loading flag. -/
def loadResolve (result : Except String TaskList) (s : AppState) : AppState :=
  match result with
  | .ok data => { s with items := data.items, loading := false }
  | .error m => { s with err := some m, loading := false }

/-- The load action run to completion: issue phase, one listTasks call for
the current effective filter, resolve phase on its outcome. -/
def load (env : Env) (s : AppState) : AppState × List ApiCall :=
  (loadResolve env.listResult (loadIssue s),
   [ApiCall.listTasks (filters s.q s.siteType s.status)])

/-- The onCreate action run to completion: clear the error, validate name,
url and criteria text locally (returning with a field-specific message and
no call on failure), then call createTask; on success clear the name, url
and criteria-text fields to their defaults and run load; on failure set the
error from the rejection. The finally clears the loading flag. -/
def onCreate (env : Env) (s : AppState) : AppState × List ApiCall :=
  let s0 := { s with err := none }
  if jsTrim s0.name = "" then
    ({ s0 with err := some "Введите название задачи" }, [])
  else if jsTrim s0.url = "" then
    ({ s0 with err := some "Введите URL" }, [])
  else
    match (if jsTrim s0.criteriaText ≠ "" then env.parseJSON s0.criteriaText
           else some (Json.obj [])) with
    | none => ({ s0 with err := some "Критерии должны быть валидным JSON" }, [])
    | some criteria =>
      let s1 := { s0 with loading := true }
      let payload : TaskCreate :=
        { name := jsTrim s1.name
          url := jsTrim s1.url
          site_type := s1.createSiteType
          criteria := criteria }
      match env.createResult with
      | .error m =>
        ({ s1 with err := some m, loading := false }, [ApiCall.createTask payload])
      | .ok _ =>
        let s2 := { s1 with name := "", url := "", criteriaText := defaultCriteriaText }
        let loaded := load env s2
        ({ loaded.1 with loading := false }, ApiCall.createTask payload :: loaded.2)

/-- The onDelete action run to completion: return immediately when the
confirm dialog is declined; otherwise set loading, clear the error, call
deleteTask and on success run load; on failure set the error from the
rejection. The finally clears the loading flag. -/
def onDelete (env : Env) (id : String) (s : AppState) : AppState × List ApiCall :=
  if !env.confirmAnswer then
    (s, [])
  else
    let s1 := { s with loading := true, err := none }
    match env.deleteResult with
    | .error m =>
      ({ s1 with err := some m, loading := false }, [ApiCall.deleteTask id])
    | .ok _ =>
      let loaded := load env s1
      ({ loaded.1 with loading := false }, ApiCall.deleteTask id :: loaded.2)

/-- The onStatus action run to completion: set loading, clear the error,
call updateStatus and on success run load; on failure set the error from
the rejection. The finally clears the loading flag. -/
def onStatus (env : Env) (id : String) (newStatus : TaskStatus) (s : AppState) :
    AppState × List ApiCall :=
  let s1 := { s with loading := true, err := none }
  match env.updateResult with
  | .error m =>
    ({ s1 with err := some m, loading := false }, [ApiCall.updateStatus id newStatus])
  | .ok _ =>
    let loaded := load env s1
    ({ loaded.1 with loading := false }, ApiCall.updateStatus id newStatus :: loaded.2)

/-! ## Spec-side characterizations and concrete fixtures -/

/-- The documented error body shape `{detail?: string}`: a detail field,
when the body is a JSON object carrying one, is a string. -/
def detailWellFormed : Option Json → Bool
  | some (Json.obj fields) =>
    match lookupField fields "detail" with
    | some (Json.str _) => true
    | some _ => false
    | none => true
  | _ => true

/-- Stated from the spec's words: prefer the structured detail field when
the body parses as JSON and exposes a non-empty one, otherwise the generic
HTTP-status message. -/
def specFailMessage (status : Nat) (jsonBody : Option Json) : String :=
  match jsonBody with
  | some body =>
    match body.getField "detail" with
    | some (Json.str s) => if s = "" then s!"HTTP {status}" else s
    | _ => s!"HTTP {status}"
  | none => s!"HTTP {status}"

/-- Sample task fixture. -/
def taskA : Task :=
  { id := "t-a"
    name := "A"
    url := "https://a.example"
    site_type := SiteType.other
    status := TaskStatus.created
    criteria := Json.obj []
    created_at := "2024-01-01"
    updated_at := "2024-01-01" }

/-- Second sample task fixture, distinguishable from the first. -/
def taskB : Task :=
  { taskA with id := "t-b", name := "B" }

/-- A list response holding only the first fixture. -/
def listOfA : TaskList :=
  { items := [taskA], total := 1, limit := 50, offset := 0 }

/-- A list response holding only the second fixture. -/
def listOfB : TaskList :=
  { items := [taskB], total := 1, limit := 50, offset := 0 }

/-- An environment where every interaction succeeds. -/
def envOk : Env :=
  { parseJSON := fun _ => some (Json.obj [])
    confirmAnswer := true
    listResult := Except.ok listOfB
    createResult := Except.ok taskA
    deleteResult := Except.ok ()
    updateResult := Except.ok taskA }

/-- envOk with the confirm dialog declined. -/
def envDecline : Env :=
  { envOk with confirmAnswer := false }

/-- envOk with a rejecting createTask. -/
def envCreateFail : Env :=
  { envOk with createResult := Except.error "duplicate name" }

/-- envOk with a JSON.parse that always throws. -/
def envParseFail : Env :=
  { envOk with parseJSON := fun _ => none }

/-! ## Helper lemmas -/

/-- The resolve phase of load never touches the create-form fields. -/
theorem loadResolve_frame (r : Except String TaskList) (s : AppState) :
    (loadResolve r s).name = s.name ∧ (loadResolve r s).url = s.url ∧
    (loadResolve r s).criteriaText = s.criteriaText ∧
    (loadResolve r s).createSiteType = s.createSiteType := by
  cases r <;> simp [loadResolve]

/-! ## Claim theorems -/

/-- C2: for every combination of filter inputs, the query built by
listTasks for the effective filter consists of the fixed page window plus
exactly the present filter fields: a field whose effective value is empty
(the trimmed free-text query, an unselected site type or status) is
omitted entirely, the free-text query is trimmed before the presence
decision, and no q/site_type/status pair ever carries an empty string. -/
theorem listTasks_query_only_present_fields (qv st sv : String) :
    listTasksQuery (filters qv st sv)
      = [("limit", toString (50 : Int)), ("offset", toString (0 : Int))]
        ++ (if sv = "" then [] else [("status", sv)])
        ++ (if st = "" then [] else [("site_type", st)])
        ++ (if jsTrim qv = "" then [] else [("q", jsTrim qv)])
    ∧ ("q", "") ∉ listTasksQuery (filters qv st sv)
    ∧ ("site_type", "") ∉ listTasksQuery (filters qv st sv)
    ∧ ("status", "") ∉ listTasksQuery (filters qv st sv) := by
  have heq : listTasksQuery (filters qv st sv)
      = [("limit", toString (50 : Int)), ("offset", toString (0 : Int))]
        ++ (if sv = "" then [] else [("status", sv)])
        ++ (if st = "" then [] else [("site_type", st)])
        ++ (if jsTrim qv = "" then [] else [("q", jsTrim qv)]) := by
    simp only [listTasksQuery, filters]
    by_cases h1 : jsTrim qv = "" <;> by_cases h2 : st = "" <;> by_cases h3 : sv = "" <;>
      simp [h1, h2, h3]
  refine ⟨heq, ?_, ?_, ?_⟩ <;> rw [heq] <;>
    by_cases h1 : jsTrim qv = "" <;> by_cases h2 : st = "" <;> by_cases h3 : sv = "" <;>
      simp_all [List.mem_append, eq_comm]

/-- C2 witness: with a padded query, no site type and a status selected,
the query holds the page window, the status and the trimmed q, and a
whitespace-only query contributes no q pair at all. -/
theorem listTasks_query_only_present_fields_spot :
    listTasksQuery (filters " a " "" "running")
      = [("limit", "50"), ("offset", "0"), ("status", "running"), ("q", "a")]
    ∧ ("q", "") ∉ listTasksQuery (filters " " "marketplace" "") :=
  ⟨((listTasks_query_only_present_fields " a " "" "running").1).trans (by decide),
   (listTasks_query_only_present_fields " " "marketplace" "").2.1⟩

/-- C3: for every non-success response whose body has the documented
`detail?: string` shape, req fails with an error whose message is the
body's detail field when the body parses as JSON and the detail is a
non-empty string, and the generic HTTP-status message otherwise. -/
theorem req_nonsuccess_error_message (resp : HttpResponse)
    (hok : responseOk resp.status = false)
    (hwf : detailWellFormed resp.jsonBody = true) :
    req resp = Except.error (ReqError.http (specFailMessage resp.status resp.jsonBody)) := by
  have hmsg : reqFailMessage resp.status resp.jsonBody
      = specFailMessage resp.status resp.jsonBody := by
    cases hb : resp.jsonBody with
    | none => rfl
    | some body =>
      rw [hb] at hwf
      cases body with
      | obj fields =>
        simp only [reqFailMessage, specFailMessage, Json.getField]
        cases hlf : lookupField fields "detail" with
        | none => rfl
        | some d =>
          cases d with
          | str s2 =>
            by_cases hs : s2 = ""
            · subst hs; simp [Json.truthy, Json.jsToString]
            · simp [Json.truthy, Json.jsToString, hs]
          | null => simp [detailWellFormed, hlf] at hwf
          | bool b => simp [detailWellFormed, hlf] at hwf
          | num n => simp [detailWellFormed, hlf] at hwf
          | arr es => simp [detailWellFormed, hlf] at hwf
          | obj fs => simp [detailWellFormed, hlf] at hwf
      | null => rfl
      | bool b => rfl
      | num n => rfl
      | str s1 => rfl
      | arr es => rfl
  simp [req, hok, hmsg]

/-- C3 witness: a 404 carrying `{"detail": "not found"}` surfaces the
message "not found". -/
theorem req_nonsuccess_error_message_spot :
    req { status := 404, jsonBody := some (Json.obj [("detail", Json.str "not found")]) }
      = Except.error (ReqError.http "not found") :=
  req_nonsuccess_error_message
    { status := 404, jsonBody := some (Json.obj [("detail", Json.str "not found")]) }
    (by decide) rfl

/-- C1: the spec requires last-request-wins by issuance order for
overlapping reloads, but load applies whatever response arrives with no
staleness guard, so when reload A is issued before reload B and A's
response resolves after B's, A's stale items overwrite B's fresher
items: the event-loop interleaving issue A, issue B, resolve B, resolve A
ends with A's single task displayed, though the two results differ. -/
theorem stale_reload_overwrites_fresh_result :
    (loadResolve (Except.ok listOfA)
      (loadResolve (Except.ok listOfB)
        (loadIssue (loadIssue initialState)))).items = [taskA]
    ∧ taskA.name = "A" ∧ taskB.name = "B" ∧ taskA.name ≠ taskB.name :=
  ⟨rfl, rfl, rfl, by decide⟩

/-- C4: with a blank (empty or whitespace-only) name, onCreate issues no
transport call and only sets the error to the name-validation message;
with a non-blank name and a blank URL, it issues no call and only sets the
error to the URL-validation message. -/
theorem onCreate_blank_name_or_url_no_call (env : Env) (s : AppState) :
    (jsTrim s.name = "" →
      onCreate env s = ({ s with err := some "Введите название задачи" }, []))
    ∧ (jsTrim s.name ≠ "" → jsTrim s.url = "" →
      onCreate env s = ({ s with err := some "Введите URL" }, [])) := by
  constructor
  · intro h
    simp [onCreate, h]
  · intro h1 h2
    simp [onCreate, h1, h2]

/-- C4 witness: a whitespace-only name and a blank URL each short-circuit
with their field message and an empty call list. -/
theorem onCreate_blank_name_or_url_no_call_spot :
    onCreate envOk { initialState with name := "  ", url := "https://x" }
      = ({ initialState with
            name := "  ", url := "https://x",
            err := some "Введите название задачи" }, [])
    ∧ onCreate envOk { initialState with name := "n" }
      = ({ initialState with name := "n", err := some "Введите URL" }, []) :=
  ⟨(onCreate_blank_name_or_url_no_call envOk _).1 (by decide),
   (onCreate_blank_name_or_url_no_call envOk _).2 (by decide) (by decide)⟩

/-- C5: with valid name and URL, a non-blank criteria text on which
JSON.parse throws makes onCreate stop with the JSON-validation message and
no transport call; a blank criteria text makes the issued createTask call
carry the empty object as its criteria payload. -/
theorem onCreate_criteria_validation_and_default (env : Env) (s : AppState) :
    (jsTrim s.criteriaText ≠ "" → env.parseJSON s.criteriaText = none →
     jsTrim s.name ≠ "" → jsTrim s.url ≠ "" →
      onCreate env s = ({ s with err := some "Критерии должны быть валидным JSON" }, []))
    ∧ (jsTrim s.criteriaText = "" → jsTrim s.name ≠ "" → jsTrim s.url ≠ "" →
      (onCreate env s).2.head? = some (ApiCall.createTask
        { name := jsTrim s.name, url := jsTrim s.url,
          site_type := s.createSiteType, criteria := Json.obj [] })) := by
  constructor
  · intro hct hp hn hu
    simp [onCreate, hn, hu, hct, hp]
  · intro hct hn hu
    simp only [onCreate, hn, hu, if_false, hct]
    simp [hct]
    cases env.createResult <;> simp [load]

/-- C5 witness: the default criteria text with a throwing JSON.parse stops
with the JSON message and no call; whitespace-only criteria text yields a
createTask call whose criteria is the empty object. -/
theorem onCreate_criteria_validation_and_default_spot :
    onCreate envParseFail { initialState with name := "n", url := "u" }
      = ({ initialState with
            name := "n", url := "u",
            err := some "Критерии должны быть валидным JSON" }, [])
    ∧ (onCreate envOk { initialState with
            name := "n", url := "u", criteriaText := " " }).2.head?
      = some (ApiCall.createTask
          { name := "n", url := "u", site_type := SiteType.other,
            criteria := Json.obj [] }) :=
  ⟨(onCreate_criteria_validation_and_default envParseFail _).1
      (by decide) rfl (by decide) (by decide),
   (onCreate_criteria_validation_and_default envOk _).2
      (by decide) (by decide) (by decide)⟩

/-- C6: when validation passes and createTask succeeds, onCreate resets
name, URL and criteria text to their defaults and the calls issued are the
createTask followed by exactly one list reload for the current filter. -/
theorem onCreate_success_resets_fields_single_reload (env : Env) (s : AppState)
    (t : Task) (c : Json)
    (hn : jsTrim s.name ≠ "") (hu : jsTrim s.url ≠ "")
    (hc : (if jsTrim s.criteriaText ≠ "" then env.parseJSON s.criteriaText
           else some (Json.obj [])) = some c)
    (hres : env.createResult = Except.ok t) :
    (onCreate env s).1.name = "" ∧ (onCreate env s).1.url = "" ∧
    (onCreate env s).1.criteriaText = defaultCriteriaText ∧
    (onCreate env s).2 = [ApiCall.createTask
        { name := jsTrim s.name, url := jsTrim s.url,
          site_type := s.createSiteType, criteria := c },
      ApiCall.listTasks (filters s.q s.siteType s.status)] := by
  have hf := loadResolve_frame env.listResult
  simp only [onCreate, hn, hu, if_false] at *
  simp [hc, hres, load, loadIssue, hf]

/-- C6 witness: a successful create from filled-in fields ends with the
three fields back at their defaults and issues the create call then one
reload. -/
theorem onCreate_success_resets_fields_single_reload_spot :
    (onCreate envOk { initialState with name := " n ", url := "u" }).1.name = ""
    ∧ (onCreate envOk { initialState with name := " n ", url := "u" }).1.url = ""
    ∧ (onCreate envOk { initialState with name := " n ", url := "u" }).1.criteriaText
        = defaultCriteriaText
    ∧ (onCreate envOk { initialState with name := " n ", url := "u" }).2
        = [ApiCall.createTask
            { name := "n", url := "u", site_type := SiteType.other,
              criteria := Json.obj [] },
          ApiCall.listTasks (filters "" "" "")] :=
  onCreate_success_resets_fields_single_reload envOk
    { initialState with name := " n ", url := "u" } taskA (Json.obj [])
    (by decide) (by decide) rfl rfl

/-- C7: when validation passes and createTask fails, onCreate leaves every
entered create-form field (name, URL, site type, criteria text) unchanged
and sets the error to the failure's message. -/
theorem onCreate_failure_preserves_inputs (env : Env) (s : AppState)
    (m : String) (c : Json)
    (hn : jsTrim s.name ≠ "") (hu : jsTrim s.url ≠ "")
    (hc : (if jsTrim s.criteriaText ≠ "" then env.parseJSON s.criteriaText
           else some (Json.obj [])) = some c)
    (hres : env.createResult = Except.error m) :
    (onCreate env s).1.name = s.name ∧ (onCreate env s).1.url = s.url ∧
    (onCreate env s).1.createSiteType = s.createSiteType ∧
    (onCreate env s).1.criteriaText = s.criteriaText ∧
    (onCreate env s).1.err = some m := by
  simp only [onCreate, hn, hu, if_false]
  simp [hc, hres]

/-- C7 witness: a rejected create keeps the entered fields and surfaces
the rejection's message. -/
theorem onCreate_failure_preserves_inputs_spot :
    (onCreate envCreateFail { initialState with name := " n ", url := "u" }).1.name = " n "
    ∧ (onCreate envCreateFail { initialState with name := " n ", url := "u" }).1.url = "u"
    ∧ (onCreate envCreateFail
        { initialState with name := " n ", url := "u" }).1.createSiteType = SiteType.other
    ∧ (onCreate envCreateFail
        { initialState with name := " n ", url := "u" }).1.criteriaText = defaultCriteriaText
    ∧ (onCreate envCreateFail { initialState with name := " n ", url := "u" }).1.err
        = some "duplicate name" :=
  onCreate_failure_preserves_inputs envCreateFail
    { initialState with name := " n ", url := "u" } "duplicate name" (Json.obj [])
    (by decide) (by decide) rfl rfl

/-- C8: when the confirm dialog is declined, onDelete issues zero
transport calls and returns the state unchanged in every field. -/
theorem onDelete_declined_is_noop (env : Env) (id : String) (s : AppState)
    (h : env.confirmAnswer = false) :
    onDelete env id s = (s, []) := by
  simp [onDelete, h]

/-- C8 witness: declining the prompt leaves the initial state untouched
and the call list empty. -/
theorem onDelete_declined_is_noop_spot :
    onDelete envDecline "t-a" initialState = (initialState, []) :=
  onDelete_declined_is_noop envDecline "t-a" initialState rfl

/-- C10: onCreate never changes the create-form site-type selector, on
every path: validation failure, create failure, and successful create with
its reload. -/
theorem onCreate_preserves_createSiteType (env : Env) (s : AppState) :
    (onCreate env s).1.createSiteType = s.createSiteType := by
  have hf := loadResolve_frame env.listResult
  by_cases hn : jsTrim s.name = ""
  · simp [onCreate, hn]
  · by_cases hu : jsTrim s.url = ""
    · simp [onCreate, hn, hu]
    · simp only [onCreate, hn, hu, if_false]
      cases hc : (if jsTrim s.criteriaText ≠ "" then env.parseJSON s.criteriaText
                  else some (Json.obj [])) with
      | none => simp [hc]
      | some c =>
        cases hres : env.createResult <;> simp [hc, hres, load, loadIssue, hf]

/-- Stated from the spec's propagation policy for a reload: no error on
success, the failure's message on failure; never the pre-existing error. -/
def specLoadErr (env : Env) : Option String :=
  match env.listResult with
  | .ok _ => none
  | .error m => some m

/-- Stated from the spec's propagation policy for a mutating action: the
failure's message on failure, otherwise whatever the subsequent reload
ends with; never the pre-existing error. -/
def specAfterMutationErr {α : Type} (env : Env) (result : Except String α) :
    Option String :=
  match result with
  | .error m => some m
  | .ok _ => specLoadErr env

/-- Stated from the spec's propagation policy for the create action: the
field-specific validation message, the create failure's message, or the
reload's outcome; never the pre-existing error. -/
def specCreateErr (env : Env) (nm u ct : String) : Option String :=
  if jsTrim nm = "" then some "Введите название задачи"
  else if jsTrim u = "" then some "Введите URL"
  else
    match (if jsTrim ct ≠ "" then env.parseJSON ct else some (Json.obj [])) with
    | none => some "Критерии должны быть валидным JSON"
    | some _ => specAfterMutationErr env env.createResult

/-- C9: every controller-level action (reload, create, confirmed delete,
status change) ends with an error that is none on success or exactly the
most recent failure's message, and that is a function of the action's
outcomes alone — the error present when the action starts is cleared and
never survives or accumulates. The first conjunct shows the clearing step
itself: the issue phase of a reload empties the error slot. -/
theorem actions_clear_and_replace_error (env : Env) (s : AppState)
    (id : String) (ns : TaskStatus) :
    (loadIssue s).err = none
    ∧ (load env s).1.err = specLoadErr env
    ∧ (onCreate env s).1.err = specCreateErr env s.name s.url s.criteriaText
    ∧ (onDelete { env with confirmAnswer := true } id s).1.err
        = specAfterMutationErr env env.deleteResult
    ∧ (onStatus env id ns s).1.err = specAfterMutationErr env env.updateResult := by
  refine ⟨rfl, ?_, ?_, ?_, ?_⟩
  · cases h : env.listResult <;>
      simp [load, loadIssue, loadResolve, specLoadErr, h]
  · by_cases hn : jsTrim s.name = ""
    · simp [onCreate, specCreateErr, hn]
    · by_cases hu : jsTrim s.url = ""
      · simp [onCreate, specCreateErr, hn, hu]
      · simp only [onCreate, specCreateErr, hn, hu, if_false]
        cases hc : (if jsTrim s.criteriaText ≠ "" then env.parseJSON s.criteriaText
                    else some (Json.obj [])) with
        | none => simp [hc]
        | some c =>
          cases hres : env.createResult <;> cases hl : env.listResult <;>
            simp [hc, hres, hl, load, loadIssue, loadResolve,
              specAfterMutationErr, specLoadErr]
  · cases hd : env.deleteResult <;> cases hl : env.listResult <;>
      simp [onDelete, hd, hl, load, loadIssue, loadResolve,
        specAfterMutationErr, specLoadErr]
  · cases hu : env.updateResult <;> cases hl : env.listResult <;>
      simp [onStatus, hu, hl, load, loadIssue, loadResolve,
        specAfterMutationErr, specLoadErr]

end TaskService
